import Mathlib

/-!
Verification of the PyMyFlySpy frontend data/render pipeline.

Shallow embedding of:
- `src/frontend/src/app/components/InteractiveWorldMap.tsx`
  (`Reading`, `formatOrSkip`/`getTableSections`, `calculateWindComponent`,
   `getPhaseDescription`, `fetchReadings`/polling, `onScrubChange`)
- `src/unnamed/part_001` (`FlightScrubber`, `handleScrub`).

JavaScript numbers are modelled as rationals (`ℚ`), except inside the
trigonometric wind-component formula where `ℝ` is required.  Absent
(`null`/`undefined`) JSON fields are modelled as `Option`.  JavaScript
truthiness (`null`, `undefined`, `0`, `""` are falsy) is modelled
explicitly, since the source tests presence by truthiness.
-/

namespace PyMyFlySpy

/-- The `Reading` record of `InteractiveWorldMap.tsx`.  The TSX interface
declares the fields non-null, but at runtime any field may be absent from
the JSON payload, so every field except the identifying `timestamp` is an
`Option`. -/
structure Reading where
  timestamp : ℚ
  latitude : Option ℚ := none
  longitude : Option ℚ := none
  altitude : Option ℚ := none
  ground_speed : Option ℚ := none
  wind_speed : Option ℚ := none
  wind_direction : Option ℚ := none
  true_heading : Option ℚ := none
  outside_air_temperature : Option ℚ := none
  distance_to_destination : Option ℚ := none
  distance_from_origin : Option ℚ := none
  distance_traveled : Option ℚ := none
  time_to_destination_minutes : Option ℚ := none
  total_flight_time_minutes : Option ℚ := none
  state : Option String := none
  flight_phase : Option String := none
  decompression : Option String := none
  all_doors_closed : Option String := none
  weight_on_wheels : Option String := none
  departure_airport : Option String := none
  destination_airport : Option String := none
  flight_number : Option String := none
  aircraft_type : Option String := none
  estimated_arrival_time : Option String := none
  scheduled_departure_time : Option String := none
deriving DecidableEq

/-- JavaScript truthiness of a possibly-absent number:
`null`, `undefined` and `0` are falsy. -/
def numTruthy : Option ℚ → Bool
  | none => false
  | some v => v != 0

/-- JavaScript truthiness of a possibly-absent string:
`null`, `undefined` and `""` are falsy. -/
def strTruthy : Option String → Bool
  | none => false
  | some s => s != ""

/-- JavaScript `a && b` on possibly-absent numbers: returns `a` when `a` is
falsy, otherwise `b`. -/
def jsAndNum (a b : Option ℚ) : Option ℚ :=
  if numTruthy a then b else a

/-- JavaScript `a && b` on possibly-absent strings. -/
def jsAndStr (a b : Option String) : Option String :=
  if strTruthy a then b else a

/-- JavaScript `a || b` on possibly-absent strings: returns `a` when `a` is
truthy, otherwise `b`. -/
def jsOrStr (a b : Option String) : Option String :=
  if strTruthy a then a else b

/-- Model of JavaScript number-to-string coercion used by template
literals. -/
def qToString (q : ℚ) : String := toString q

/-- Model of interpolating a possibly-absent number into a template
literal: an absent value prints as `"undefined"`. -/
def jsInterpNum : Option ℚ → String
  | none => "undefined"
  | some q => qToString q

/-- Model of interpolating a possibly-absent string into a template
literal. -/
def jsInterpStr : Option String → String
  | none => "undefined"
  | some s => s

/-- JavaScript `Math.trunc`-style integer part (rounding toward zero),
used to model the `%` remainder operator. -/
def jsTrunc (q : ℚ) : ℤ :=
  if 0 ≤ q then ⌊q⌋ else ⌈q⌉

/-- JavaScript `%` (truncated remainder). -/
def jsMod (a b : ℚ) : ℚ :=
  a - b * (jsTrunc (a / b) : ℚ)

/-- Renders the integer `n` (already scaled by `10 ^ digits`) with a
decimal point before the last `digits` digits; shared backend of the
`toFixed` models. -/
def fixedDigitsString (digits : ℕ) (n : ℤ) : String :=
  let sign := if n < 0 then "-" else ""
  let m := n.natAbs
  let base := (10 : ℕ) ^ digits
  if digits = 0 then
    sign ++ toString m
  else
    let frac := toString (m % base)
    let pad := String.mk (List.replicate (digits - frac.length) '0')
    sign ++ toString (m / base) ++ "." ++ pad ++ frac

/-- Model of JavaScript `Number.prototype.toFixed(digits)` on a rational:
round to `digits` decimals, ties toward the larger candidate (ES spec
"pick the larger n"). -/
def jsToFixed (digits : ℕ) (q : ℚ) : String :=
  fixedDigitsString digits ⌊q * ((10 : ℚ) ^ digits) + 1 / 2⌋

/-- Model of JavaScript `toFixed` on a real number (needed for the
wind-component result, which involves `cos`). -/
noncomputable def jsToFixedReal (digits : ℕ) (x : ℝ) : String :=
  fixedDigitsString digits ⌊x * ((10 : ℝ) ^ digits) + 1 / 2⌋

/-- `calculateWindComponent` from `InteractiveWorldMap.tsx`: converts the
two angles to radians and returns `windSpeed * cos(windDirRad -
headingRad)`; positive values indicate tailwind, negative headwind. -/
noncomputable def calculateWindComponent (trueHeading windDirection windSpeed : ℝ) : ℝ :=
  let headingRad := trueHeading * Real.pi / 180
  let windDirRad := windDirection * Real.pi / 180
  windSpeed * Real.cos (windDirRad - headingRad)

/-- The `windComponent` local of `getTableSections`:
`ws && wd && th ? calculateWindComponent(th, wd, ws) : null`.
The chained `&&` is falsy (hence the ternary yields `null`) as soon as any
of the three fields is absent or `0`. -/
noncomputable def windComponent (r : Reading) : Option ℝ :=
  match r.wind_speed, r.wind_direction, r.true_heading with
  | some ws, some wd, some th =>
      if ws = 0 ∨ wd = 0 ∨ th = 0 then none
      else some (calculateWindComponent (th : ℝ) (wd : ℝ) (ws : ℝ))
  | _, _, _ => none

/-- The `SHOW_UNKNOWN` flag of `InteractiveWorldMap.tsx`. -/
def SHOW_UNKNOWN : Bool := true

/-- `formatOrSkip` specialised to number-valued fields: `null`/`undefined`
yield `"Unknown"` (when `SHOW_UNKNOWN`), any number — including `0` — is
formatted. -/
def formatOrSkipNum (value : Option ℚ) (formatter : ℚ → String) : Option String :=
  match value with
  | none => if SHOW_UNKNOWN then some "Unknown" else none
  | some v => some (formatter v)

/-- `formatOrSkip` specialised to string-valued fields: `null`, `undefined`
and `""` yield `"Unknown"` (when `SHOW_UNKNOWN`). -/
def formatOrSkipStr (value : Option String) (formatter : String → String) : Option String :=
  match value with
  | none => if SHOW_UNKNOWN then some "Unknown" else none
  | some s =>
      if s = "" then (if SHOW_UNKNOWN then some "Unknown" else none)
      else some (formatter s)

/-- `formatOrSkip` specialised to the real-valued wind component. -/
noncomputable def formatOrSkipReal (value : Option ℝ) (formatter : ℝ → String) :
    Option String :=
  match value with
  | none => if SHOW_UNKNOWN then some "Unknown" else none
  | some v => some (formatter v)

/-- `getPhaseDescription` from `InteractiveWorldMap.tsx`: fixed map from
phase codes `"1"`–`"8"`; unknown codes pass through verbatim. -/
def getPhaseDescription (phase : String) : String :=
  if phase = "1" then "Pre-flight"
  else if phase = "2" then "Taxi"
  else if phase = "3" then "Take-off"
  else if phase = "4" then "Initial Climb"
  else if phase = "5" then "En Route"
  else if phase = "6" then "Approach"
  else if phase = "7" then "Landing"
  else if phase = "8" then "Post-flight"
  else phase

/-- The `timeInAirMinutes` local of `getTableSections`:
`currentReading.total_flight_time_minutes || 0` — an absent (or zero)
value is coerced to `0` by JavaScript `||`. -/
def timeInAirMinutes (r : Reading) : ℚ :=
  match r.total_flight_time_minutes with
  | none => 0
  | some v => if v = 0 then 0 else v

/-- The `Time in air` formatter body: `` `${hours}h ${minutes}m` `` with
`hours = Math.floor(t / 60)` and `minutes = t % 60`. -/
def timeInAirString (r : Reading) : String :=
  let t := timeInAirMinutes r
  let hours : ℤ := ⌊t / 60⌋
  let minutes : ℚ := jsMod t 60
  s!"{hours}h {qToString minutes}m"

/-- The `Wind` row formatter body:
`` `${currentReading.wind_speed} km/h from ${currentReading.wind_direction}°` ``
— note it interpolates the raw fields, ignoring the `formatOrSkip`
argument. -/
def windRowString (r : Reading) : String :=
  s!"{jsInterpNum r.wind_speed} km/h from {jsInterpNum r.wind_direction}°"

/-- The `Route` row formatter body:
`` `${currentReading.departure_airport} → ${currentReading.destination_airport}` ``. -/
def routeString (r : Reading) : String :=
  s!"{jsInterpStr r.departure_airport} → {jsInterpStr r.destination_airport}"

/-- The `Wind effect` formatter body:
`` `${Math.abs(v).toFixed(1)} km/h ${v > 0 ? 'tailwind' : 'headwind'}` ``. -/
noncomputable def windEffectString (v : ℝ) : String :=
  s!"{jsToFixedReal 1 (abs v)} km/h " ++ (if v > 0 then "tailwind" else "headwind")

/-- Ambient rendering environment: the wall-clock string used by the
`Time now` row (`new Date().toLocaleTimeString()`) and the locale time
formatter applied to the schedule fields
(`v => new Date(v).toLocaleTimeString()`); both are external,
locale-dependent collaborators passed in explicitly. -/
structure RenderEnv where
  nowString : String
  localeTimeString : String → String

/-- The `sections` array of `getTableSections`, before the `SHOW_UNKNOWN`
null filter: section titles paired with labelled, possibly-null row
values. -/
noncomputable def rawSections (env : RenderEnv) (r : Reading) :
    List (String × List (String × Option String)) :=
  [("Flight Information",
    [("Time now", some env.nowString),
     ("Flight number", formatOrSkipStr r.flight_number (fun v => v)),
     ("Aircraft", formatOrSkipStr r.aircraft_type (fun v => v)),
     ("Route", formatOrSkipStr (jsAndStr r.departure_airport r.destination_airport)
        (fun _ => routeString r)),
     ("Time in air", formatOrSkipNum (some (timeInAirMinutes r))
        (fun _ => timeInAirString r))]),
   ("Position & Altitude",
    [("Latitude", formatOrSkipNum r.latitude (fun v => jsToFixed 4 v)),
     ("Longitude", formatOrSkipNum r.longitude (fun v => jsToFixed 4 v)),
     ("Altitude", formatOrSkipNum r.altitude (fun v => s!"{qToString v} ft")),
     ("True heading", formatOrSkipNum r.true_heading (fun v => s!"{jsToFixed 1 v}°"))]),
   ("Speed & Weather",
    [("Ground speed", formatOrSkipNum r.ground_speed (fun v => s!"{qToString v} km/h")),
     ("Air temp", formatOrSkipNum r.outside_air_temperature (fun v => s!"{qToString v}°C")),
     ("Wind", formatOrSkipNum (jsAndNum r.wind_speed r.wind_direction)
        (fun _ => windRowString r)),
     ("Wind effect", formatOrSkipReal (windComponent r) windEffectString)]),
   ("Journey Progress",
    [("Dist from origin", formatOrSkipNum r.distance_from_origin (fun v => s!"{qToString v} km")),
     ("Dist traveled", formatOrSkipNum r.distance_traveled (fun v => s!"{qToString v} km")),
     ("Dist to dest", formatOrSkipNum r.distance_to_destination (fun v => s!"{qToString v} km")),
     ("Time to dest", formatOrSkipNum r.time_to_destination_minutes
        (fun v => s!"{qToString v} min"))]),
   ("Schedule",
    [("Est arrival", formatOrSkipStr r.estimated_arrival_time env.localeTimeString),
     ("Scheduled departure", formatOrSkipStr r.scheduled_departure_time env.localeTimeString)]),
   ("Aircraft Status",
    [("Flight phase", formatOrSkipStr (jsOrStr r.state r.flight_phase) getPhaseDescription),
     ("Weight on wheels", formatOrSkipStr r.weight_on_wheels
        (fun v => if v = "1" then "Yes" else "No")),
     ("Doors closed", formatOrSkipStr r.all_doors_closed
        (fun v => if v = "1" then "Yes" else "No")),
     ("Decompression", formatOrSkipStr r.decompression
        (fun v => if v = "1" then "Yes" else "No"))])]

/-- `getTableSections`: the raw sections with `null`-valued rows filtered
out (`.filter(([_, value]) => value !== null)`). -/
noncomputable def getTableSections (env : RenderEnv) (r : Reading) :
    List (String × List (String × String)) :=
  (rawSections env r).map (fun sec =>
    (sec.1, sec.2.filterMap (fun p => p.2.map (fun v => (p.1, v)))))

/-- Looks up the displayed value of the row with the given label across
all rendered sections. -/
def rowValue (sections : List (String × List (String × String))) (label : String) :
    Option String :=
  List.lookup label (sections.foldr (fun s acc => s.2 ++ acc) [])

/-- Looks up a row in the unfiltered sections; the found value is itself
possibly null. -/
def rawLookup (sections : List (String × List (String × Option String))) (label : String) :
    Option String :=
  (List.lookup label (sections.foldr (fun s acc => s.2 ++ acc) [])).join

/-- The `validStartTime` / `validEndTime` computation of `FlightScrubber`:
`t ? new Date(t).getTime() : null` — a present value is passed through,
but `0` is falsy and becomes `null`. -/
def validTime : Option ℚ → Option ℚ
  | none => none
  | some v => if v = 0 then none else some v

/-- The `totalDuration` computation of `FlightScrubber`:
`validStartTime && validEndTime ? validEndTime - validStartTime : 0`. -/
def totalDuration (validStartTime validEndTime : Option ℚ) : ℚ :=
  match validStartTime, validEndTime with
  | some s, some e => if s = 0 ∨ e = 0 then 0 else e - s
  | _, _ => 0

/-- `handleScrub` of `FlightScrubber`: guards
`!validStartTime || !totalDuration || !scrubberRef.current`, clamps the
pointer x-offset into `[0, rect.width]`, converts it to a percentage and
emits `validStartTime + totalDuration * (newProgress / 100)`; `none`
models the early `return` (no `onScrubChange` call). -/
def handleScrub (startTime endTime : Option ℚ) (scrubberRefPresent : Bool)
    (rectLeft rectWidth clientX : ℚ) : Option ℚ :=
  let validStartTime := validTime startTime
  let validEndTime := validTime endTime
  let dur := totalDuration validStartTime validEndTime
  match validStartTime with
  | none => none
  | some s =>
      if dur = 0 then none
      else if scrubberRefPresent = false then none
      else
        let x := min (max 0 (clientX - rectLeft)) rectWidth
        let newProgress := x / rectWidth * 100
        some (s + dur * (newProgress / 100))

/-- The render guard of `FlightScrubber`:
`if (!validStartTime || !validEndTime || totalDuration <= 0) return null`.
When this is `false` the component mounts no scrubber bar at all, so no
mouse handler can fire. -/
def rendersScrubber (startTime endTime : Option ℚ) : Bool :=
  (validTime startTime).isSome && (validTime endTime).isSome &&
    decide (0 < totalDuration (validTime startTime) (validTime endTime))

/-- One user scrub interaction end to end: an `onScrubChange` emission can
only happen through `handleScrub` on a mounted scrubber bar (if the
component rendered `null`, there is no element to drag). -/
def scrubEmit (startTime endTime : Option ℚ) (rectLeft rectWidth clientX : ℚ) : Option ℚ :=
  if rendersScrubber startTime endTime then
    handleScrub startTime endTime true rectLeft rectWidth clientX
  else none

/-- Timestamp order on readings, the comparator
`(a, b) => a.timestamp - b.timestamp` of `fetchReadings`. -/
def tsLe (a b : Reading) : Prop := a.timestamp ≤ b.timestamp

instance : DecidableRel tsLe := fun a b =>
  inferInstanceAs (Decidable (a.timestamp ≤ b.timestamp))

instance : IsTotal Reading tsLe := ⟨fun a b => le_total a.timestamp b.timestamp⟩

instance : IsTrans Reading tsLe := ⟨fun _ _ _ hab hbc => le_trans hab hbc⟩

/-- `data.sort((a, b) => a.timestamp - b.timestamp)`: JavaScript
`Array.prototype.sort` is a stable ascending sort for this comparator,
modelled by stable insertion sort under `tsLe`. -/
def sortReadings (l : List Reading) : List Reading :=
  List.insertionSort tsLe l

/-- One step of the `reduce` in `onScrubChange`: keep `curr` only when it
is strictly closer to the target time than `prev` (ties keep `prev`). -/
def closestStep (t : ℚ) (prev curr : Reading) : Reading :=
  if |curr.timestamp - t| < |prev.timestamp - t| then curr else prev

/-- `readings.reduce((prev, curr) => ...)` of `onScrubChange`: JavaScript
`reduce` without an initial value starts from the first element and folds
over the rest. -/
def reduceClosest (t : ℚ) (first : Reading) (rest : List Reading) : Reading :=
  rest.foldl (closestStep t) first

/-- The `InteractiveWorldMap` component state touched by polling and
scrubbing: `readings`, `currentReading`, `selectedTime`, plus an explicit
count of fetches currently in flight and of `console.error` log entries
(to make the asynchronous fetch lifecycle and error logging visible in
the model). -/
structure ClientState where
  readings : List Reading
  currentReading : Option Reading
  selectedTime : Option ℚ
  inFlight : ℕ
  errorLog : ℕ
deriving DecidableEq

/-- Events driving the component state: an interval tick
(`setInterval(fetchReadings, 1000)` firing), a pending fetch resolving
with parsed data, a pending fetch rejecting (network error or unparseable
response), and a scrubber drag emitting a new time. -/
inductive PollEvent where
  | tick
  | fetchSuccess (data : List Reading)
  | fetchFailure
  | scrub (newTime : ℚ)

/-- The polling interval passed to `setInterval` in milliseconds. -/
def pollIntervalMs : ℕ := 1000

/-- One event step of the component, straight from the source:

* `tick` — the interval callback invokes `fetchReadings()`
  unconditionally; there is no in-flight guard, so a new fetch starts
  even when one is already pending.
* `fetchSuccess data` — the `try` body: sort by timestamp, replace
  `readings` wholesale, and (when nonempty) set `currentReading` to the
  last sorted element; `selectedTime` is never consulted.
* `fetchFailure` — the `catch` arm: `console.error` only, all component
  state retained.
* `scrub t` — `onScrubChange`: store the selected time and set
  `currentReading` to the reading nearest `t`; on an empty `readings`
  list the source's `reduce` throws, modelled as `none`. -/
def pollStep (st : ClientState) : PollEvent → Option ClientState
  | .tick => some { st with inFlight := st.inFlight + 1 }
  | .fetchSuccess data =>
      let sortedReadings := sortReadings data
      some { st with
        inFlight := st.inFlight - 1,
        readings := sortedReadings,
        currentReading :=
          match sortedReadings.getLast? with
          | some r => some r
          | none => st.currentReading }
  | .fetchFailure =>
      some { st with inFlight := st.inFlight - 1, errorLog := st.errorLog + 1 }
  | .scrub newTime =>
      match st.readings with
      | [] => none
      | first :: rest =>
          some { st with
            selectedTime := some newTime,
            currentReading := some (reduceClosest newTime first rest) }

/-- Reading with timestamp 100 and every other field absent. -/
def r100 : Reading := { timestamp := 100 }

/-- Reading with timestamp 200 and every other field absent. -/
def r200 : Reading := { timestamp := 200 }

/-- Reading with timestamp 300 and every other field absent. -/
def r300 : Reading := { timestamp := 300 }

/-- Reading with `wind_speed = 0` (a present, valid value: calm wind),
`wind_direction = 45`, `true_heading = 90`. -/
def rWindZero : Reading :=
  { timestamp := 100,
    wind_speed := some 0,
    wind_direction := some 45,
    true_heading := some 90 }

/-- Reading matching the spec's pure-tailwind capture scenario:
`wind_speed = 20`, `wind_direction = 90`, `true_heading = 90`. -/
def rWindTail : Reading :=
  { timestamp := 100,
    wind_speed := some 20,
    wind_direction := some 90,
    true_heading := some 90 }

/-- A concrete rendering environment for witnesses. -/
def env0 : RenderEnv := { nowString := "now", localeTimeString := fun s => s }

/-- Component state with one fetch in flight and nothing loaded yet. -/
def pollStateA : ClientState :=
  { readings := [], currentReading := none, selectedTime := none, inFlight := 1, errorLog := 0 }

/-- The state reached from `pollStateA` by a successful fetch of
timestamps `[100, 300, 200]`. -/
def pollStateB : ClientState :=
  { readings := [r100, r200, r300], currentReading := some r300, selectedTime := none,
    inFlight := 0, errorLog := 0 }

/-- Component state in which the Scrubber has an active manual selection:
the user scrubbed to time 150 and the nearest reading `r100` was made
current. -/
def pollStateC : ClientState :=
  { readings := [r100, r300], currentReading := some r100, selectedTime := some 150,
    inFlight := 1, errorLog := 0 }

/-- In a timestamp-sorted reading list, the last element has the maximum
timestamp. -/
theorem getLast?_timestamp_max :
    ∀ {l : List Reading} {m : Reading}, List.Pairwise tsLe l → l.getLast? = some m →
      ∀ x ∈ l, x.timestamp ≤ m.timestamp
  | [], _, _, hl => by simp at hl
  | [a], m, _, hl => by
      simp only [List.getLast?_singleton, Option.some.injEq] at hl
      subst hl
      simp
  | a :: b :: t, m, hp, hl => by
      rw [List.getLast?_cons_cons] at hl
      rw [List.pairwise_cons] at hp
      have ih := getLast?_timestamp_max hp.2 hl
      intro x hx
      rcases List.mem_cons.mp hx with rfl | hx2
      · have hm : m ∈ b :: t := by
          obtain ⟨hne2, hg⟩ := List.mem_getLast?_eq_getLast (Option.mem_def.mpr hl)
          exact hg ▸ List.getLast_mem hne2
        exact le_trans (hp.1 m hm) (ih m hm)
      · exact ih x hx2

/-- C1 counterexample.  The claim says a tick firing while a fetch is in
flight performs no fetch.  In the code `setInterval(fetchReadings, 1000)`
invokes `fetchReadings` with no in-flight guard: from a state with one
fetch pending, a tick starts a second one (two fetches in flight, not
one). -/
theorem C1_counterexample :
    pollStep pollStateA .tick = some { pollStateA with inFlight := 2 } ∧
    pollStateA.inFlight = 1 ∧ (2 : ℕ) ≠ 1 :=
  ⟨rfl, rfl, by decide⟩

/-- C1 amended: the Polling Client fetches on a fixed 1-second interval,
and every tick performs a fetch unconditionally — there is no overlap
guard, so a tick firing during a slow fetch adds a concurrent fetch
rather than being skipped. -/
theorem C1_amended (st : ClientState) :
    pollStep st .tick = some { st with inFlight := st.inFlight + 1 } ∧
    pollIntervalMs = 1000 :=
  ⟨rfl, rfl⟩

/-- C1 witness: the amended theorem at a concrete state — a tick with one
fetch already pending starts another. -/
theorem C1_witness :
    pollStep pollStateA .tick
      = some { pollStateA with inFlight := pollStateA.inFlight + 1 } ∧
    pollIntervalMs = 1000 :=
  C1_amended pollStateA

/-- C2 counterexample.  With the Scrubber holding an active manual
selection (`selectedTime = 150`, manually selected current reading
`r100`), a successful poll still overwrites the current reading with the
max-timestamp reading `r300`: the manual selection is not preserved. -/
theorem C2_counterexample :
    pollStateC.selectedTime = some 150 ∧
    pollStateC.currentReading = some r100 ∧
    (pollStep pollStateC (.fetchSuccess [r100, r300])).map ClientState.currentReading
      = some (some r300) ∧
    r300 ≠ r100 :=
  ⟨rfl, rfl, by decide, by decide⟩

/-- C2 amended: on every successful poll the client's reading list is
replaced wholesale by the fetched readings sorted by timestamp ascending,
and the current reading is set to the last sorted element — a reading of
maximum timestamp — unconditionally, even when the Scrubber has an active
manual selection. -/
theorem C2_amended (st : ClientState) (data : List Reading) (st2 : ClientState)
    (hne : data ≠ []) (hstep : pollStep st (.fetchSuccess data) = some st2) :
    st2.readings = sortReadings data ∧
    List.Pairwise tsLe st2.readings ∧
    st2.readings.Perm data ∧
    st2.currentReading = (sortReadings data).getLast? ∧
    (∀ r, st2.currentReading = some r → r ∈ data ∧ ∀ x ∈ data, x.timestamp ≤ r.timestamp) := by
  have hperm : (sortReadings data).Perm data := List.perm_insertionSort tsLe data
  have hpair : List.Pairwise tsLe (sortReadings data) := List.sorted_insertionSort tsLe data
  have hsnil : sortReadings data ≠ [] := by
    intro h0
    exact hne (List.Perm.eq_nil (h0 ▸ hperm).symm)
  have hlast : (sortReadings data).getLast? = some ((sortReadings data).getLast hsnil) :=
    List.getLast?_eq_getLast_of_ne_nil hsnil
  simp only [pollStep, Option.some.injEq] at hstep
  subst hstep
  refine ⟨rfl, hpair, hperm, ?_, ?_⟩
  · simp [hlast]
  · intro r hr
    simp only [hlast, Option.some.injEq] at hr
    subst hr
    have hmem : (sortReadings data).getLast hsnil ∈ sortReadings data := List.getLast_mem hsnil
    refine ⟨hperm.subset hmem, ?_⟩
    intro x hx
    exact getLast?_timestamp_max hpair hlast x (hperm.symm.subset hx)

/-- C2 witness: the spec's end-to-end scenario.  Appending readings with
timestamps `[100, 300, 200]` in that insertion order, a successful poll
yields the sorted order `[100, 200, 300]` and current reading `r300`
(timestamp 300, the maximum). -/
theorem C2_witness :
    ([r100, r300, r200] ≠ ([] : List Reading)) ∧
    pollStep pollStateA (.fetchSuccess [r100, r300, r200]) = some pollStateB ∧
    pollStateB.readings = sortReadings [r100, r300, r200] ∧
    pollStateB.readings = [r100, r200, r300] ∧
    pollStateB.currentReading = (sortReadings [r100, r300, r200]).getLast? := by
  refine ⟨by decide, by decide, ?_, by decide, ?_⟩
  · exact (C2_amended pollStateA [r100, r300, r200] pollStateB (by decide) (by decide)).1
  · exact (C2_amended pollStateA [r100, r300, r200] pollStateB (by decide) (by decide)).2.2.2.1

/-- C8: when a poll fetch fails, the `catch` arm leaves the reading list,
current reading and selection exactly as they were; the failure is only
logged (`console.error`), the handler returns normally (no hard error),
and a subsequent tick starts a fetch again as usual. -/
theorem C8_theorem (st : ClientState) :
    pollStep st .fetchFailure
      = some { st with inFlight := st.inFlight - 1, errorLog := st.errorLog + 1 } ∧
    (pollStep st .fetchFailure).map ClientState.readings = some st.readings ∧
    (pollStep st .fetchFailure).map ClientState.currentReading = some st.currentReading ∧
    (pollStep st .fetchFailure).map ClientState.selectedTime = some st.selectedTime ∧
    (pollStep st .fetchFailure).map ClientState.errorLog = some (st.errorLog + 1) ∧
    ((pollStep st .fetchFailure).bind (fun st2 => pollStep st2 .tick)).map ClientState.inFlight
      = some (st.inFlight - 1 + 1) :=
  ⟨rfl, rfl, rfl, rfl, rfl, rfl⟩

/-- C8 witness: the failure-atomicity theorem at a concrete state. -/
theorem C8_witness :
    pollStep pollStateA .fetchFailure
      = some { pollStateA with
                 inFlight := pollStateA.inFlight - 1,
                 errorLog := pollStateA.errorLog + 1 } ∧
    (pollStep pollStateA .fetchFailure).map ClientState.readings = some pollStateA.readings ∧
    (pollStep pollStateA .fetchFailure).map ClientState.currentReading
      = some pollStateA.currentReading ∧
    (pollStep pollStateA .fetchFailure).map ClientState.selectedTime
      = some pollStateA.selectedTime ∧
    (pollStep pollStateA .fetchFailure).map ClientState.errorLog
      = some (pollStateA.errorLog + 1) ∧
    ((pollStep pollStateA .fetchFailure).bind (fun st2 => pollStep st2 .tick)).map
        ClientState.inFlight
      = some (pollStateA.inFlight - 1 + 1) :=
  C8_theorem pollStateA

/-- With `SHOW_UNKNOWN = true`, a number-field row value is never null. -/
theorem formatOrSkipNum_isSome (v : Option ℚ) (f : ℚ → String) :
    (formatOrSkipNum v f).isSome = true := by
  cases v <;> simp [formatOrSkipNum, SHOW_UNKNOWN]

/-- With `SHOW_UNKNOWN = true`, a string-field row value is never null. -/
theorem formatOrSkipStr_isSome (v : Option String) (f : String → String) :
    (formatOrSkipStr v f).isSome = true := by
  cases v with
  | none => simp [formatOrSkipStr, SHOW_UNKNOWN]
  | some s =>
      by_cases h : s = "" <;> simp [formatOrSkipStr, SHOW_UNKNOWN, h]

/-- With `SHOW_UNKNOWN = true`, the wind-effect row value is never null. -/
theorem formatOrSkipReal_isSome (v : Option ℝ) (f : ℝ → String) :
    (formatOrSkipReal v f).isSome = true := by
  cases v <;> simp [formatOrSkipReal, SHOW_UNKNOWN]

/-- Looking up a label in null-filtered rows agrees with looking it up in
the raw rows, provided no raw row value is null. -/
theorem lookup_filterMap_rows (label : String) :
    ∀ (rows : List (String × Option String)), (∀ p ∈ rows, p.2.isSome = true) →
      List.lookup label (rows.filterMap (fun p => p.2.map (fun v => (p.1, v))))
        = (List.lookup label rows).join
  | [], _ => rfl
  | (a, v) :: rest, h => by
      obtain ⟨s, hs⟩ := Option.isSome_iff_exists.mp (h (a, v) (List.mem_cons_self _ _))
      subst hs
      by_cases hl : label = a
      · simp [hl, List.filterMap_cons, List.lookup]
      · have hba : (label == a) = false := beq_false_of_ne hl
        simp only [List.filterMap_cons, Option.map_some', List.lookup, hba]
        exact lookup_filterMap_rows label rest (fun p hp => h p (List.mem_cons_of_mem _ hp))

/-- The flattened rendered rows are the null-filtered flattened raw
rows. -/
theorem flatten_getTableSections (env : RenderEnv) (r : Reading) :
    (getTableSections env r).foldr (fun s acc => s.2 ++ acc) []
      = ((rawSections env r).foldr (fun s acc => s.2 ++ acc) []).filterMap
          (fun p => p.2.map (fun v => (p.1, v))) := by
  unfold getTableSections
  generalize rawSections env r = secs
  induction secs with
  | nil => rfl
  | cons s rest ih => simp [List.filterMap_append, ih]

/-- Every raw row value of `rawSections` is non-null (the `Time now` row
is a plain value; every other row goes through `formatOrSkip` with
`SHOW_UNKNOWN = true`). -/
theorem rawSections_isSome (env : RenderEnv) (r : Reading) :
    ∀ p ∈ (rawSections env r).foldr (fun s acc => s.2 ++ acc) [], p.2.isSome = true := by
  intro p hp
  simp only [rawSections, List.foldr_cons, List.foldr_nil, List.append_assoc, List.mem_append,
    List.mem_cons, List.not_mem_nil, or_false] at hp
  rcases hp with hp | hp | hp | hp | hp | hp <;>
    rcases hp with rfl | rfl | rfl | rfl | rfl <;>
      first
        | rfl
        | exact formatOrSkipNum_isSome _ _
        | exact formatOrSkipStr_isSome _ _
        | exact formatOrSkipReal_isSome _ _

/-- Row lookup in the rendered table agrees with row lookup in the raw
sections: with `SHOW_UNKNOWN = true` the null filter drops nothing. -/
theorem rowValue_eq_rawLookup (env : RenderEnv) (r : Reading) (label : String) :
    rowValue (getTableSections env r) label = rawLookup (rawSections env r) label := by
  unfold rowValue rawLookup
  rw [flatten_getTableSections]
  exact lookup_filterMap_rows label _ (rawSections_isSome env r)

/-- The wind component is null whenever any of its three inputs is
absent. -/
theorem windComponent_none_of_absent (r : Reading)
    (h : r.wind_speed = none ∨ r.wind_direction = none ∨ r.true_heading = none) :
    windComponent r = none := by
  rcases h with h | h | h <;>
    · rcases hws : r.wind_speed with _ | a <;> rcases hwd : r.wind_direction with _ | b <;>
        rcases hth : r.true_heading with _ | c <;>
        simp_all [windComponent]

/-- The wind component is null whenever any of its three inputs is `0`
(the chained `&&` treats `0` as absent). -/
theorem windComponent_none_of_zero (r : Reading)
    (h : r.wind_speed = some 0 ∨ r.wind_direction = some 0 ∨ r.true_heading = some 0) :
    windComponent r = none := by
  rcases h with h | h | h <;>
    · rcases hws : r.wind_speed with _ | a <;> rcases hwd : r.wind_direction with _ | b <;>
        rcases hth : r.true_heading with _ | c <;>
        simp_all [windComponent]

/-- C3 counterexample.  The claim says every absent field renders
`"Unknown"`, naming `total_flight_time_minutes` in particular.  But the
source computes `timeInAirMinutes = total_flight_time_minutes || 0`, so
an absent value is coerced to `0` before `formatOrSkip` sees it, and the
`Time in air` row renders the zero duration `"0h 0m"`, not
`"Unknown"`. -/
theorem C3_counterexample :
    r100.total_flight_time_minutes = none ∧
    rowValue (getTableSections env0 r100) "Time in air" = some "0h 0m" ∧
    some "0h 0m" ≠ some "Unknown" := by
  refine ⟨rfl, ?_, by decide⟩
  rw [rowValue_eq_rawLookup]
  simp [rawSections, rawLookup, List.lookup, r100, timeInAirMinutes, timeInAirString,
    formatOrSkipNum, SHOW_UNKNOWN, jsMod, jsTrunc, qToString]
  rfl

/-- C3 amended: every absent Reading field renders its row as
`"Unknown"`, with two exceptions forced by the source: an absent
`total_flight_time_minutes` is coerced to `0` by `|| 0` and `Time in air`
renders `"0h 0m"`; and the `Wind` row when `wind_direction` is absent but
`wind_speed` is present and zero (then `wind_speed && wind_direction`
evaluates to `0`, which `formatOrSkip` formats). -/
theorem C3_amended (env : RenderEnv) (r : Reading) :
    (r.flight_number = none →
      rowValue (getTableSections env r) "Flight number" = some "Unknown") ∧
    (r.aircraft_type = none →
      rowValue (getTableSections env r) "Aircraft" = some "Unknown") ∧
    (r.departure_airport = none ∨ r.destination_airport = none →
      rowValue (getTableSections env r) "Route" = some "Unknown") ∧
    (r.latitude = none →
      rowValue (getTableSections env r) "Latitude" = some "Unknown") ∧
    (r.longitude = none →
      rowValue (getTableSections env r) "Longitude" = some "Unknown") ∧
    (r.altitude = none →
      rowValue (getTableSections env r) "Altitude" = some "Unknown") ∧
    (r.true_heading = none →
      rowValue (getTableSections env r) "True heading" = some "Unknown") ∧
    (r.ground_speed = none →
      rowValue (getTableSections env r) "Ground speed" = some "Unknown") ∧
    (r.outside_air_temperature = none →
      rowValue (getTableSections env r) "Air temp" = some "Unknown") ∧
    (r.wind_speed = none →
      rowValue (getTableSections env r) "Wind" = some "Unknown") ∧
    (r.wind_direction = none → r.wind_speed ≠ some 0 →
      rowValue (getTableSections env r) "Wind" = some "Unknown") ∧
    (r.wind_speed = none ∨ r.wind_direction = none ∨ r.true_heading = none →
      rowValue (getTableSections env r) "Wind effect" = some "Unknown") ∧
    (r.distance_from_origin = none →
      rowValue (getTableSections env r) "Dist from origin" = some "Unknown") ∧
    (r.distance_traveled = none →
      rowValue (getTableSections env r) "Dist traveled" = some "Unknown") ∧
    (r.distance_to_destination = none →
      rowValue (getTableSections env r) "Dist to dest" = some "Unknown") ∧
    (r.time_to_destination_minutes = none →
      rowValue (getTableSections env r) "Time to dest" = some "Unknown") ∧
    (r.estimated_arrival_time = none →
      rowValue (getTableSections env r) "Est arrival" = some "Unknown") ∧
    (r.scheduled_departure_time = none →
      rowValue (getTableSections env r) "Scheduled departure" = some "Unknown") ∧
    (r.state = none → r.flight_phase = none →
      rowValue (getTableSections env r) "Flight phase" = some "Unknown") ∧
    (r.weight_on_wheels = none →
      rowValue (getTableSections env r) "Weight on wheels" = some "Unknown") ∧
    (r.all_doors_closed = none →
      rowValue (getTableSections env r) "Doors closed" = some "Unknown") ∧
    (r.decompression = none →
      rowValue (getTableSections env r) "Decompression" = some "Unknown") ∧
    (r.total_flight_time_minutes = none →
      rowValue (getTableSections env r) "Time in air" = some "0h 0m") := by
  refine ⟨?_, ?_, ?_, ?_, ?_, ?_, ?_, ?_, ?_, ?_, ?_, ?_, ?_, ?_, ?_, ?_, ?_, ?_, ?_, ?_,
    ?_, ?_, ?_⟩ <;> rw [rowValue_eq_rawLookup]
  · intro h
    simp [rawSections, rawLookup, List.lookup, h, formatOrSkipStr, SHOW_UNKNOWN]
  · intro h
    simp [rawSections, rawLookup, List.lookup, h, formatOrSkipStr, SHOW_UNKNOWN]
  · intro h
    rcases h with h | h
    · simp [rawSections, rawLookup, List.lookup, h, jsAndStr, strTruthy,
        formatOrSkipStr, SHOW_UNKNOWN]
    · rcases hd : r.departure_airport with _ | s
      · simp [rawSections, rawLookup, List.lookup, h, hd, jsAndStr, strTruthy,
          formatOrSkipStr, SHOW_UNKNOWN]
      · by_cases hs : s = "" <;>
          simp [rawSections, rawLookup, List.lookup, h, hd, hs, jsAndStr, strTruthy,
            formatOrSkipStr, SHOW_UNKNOWN]
  · intro h
    simp [rawSections, rawLookup, List.lookup, h, formatOrSkipNum, SHOW_UNKNOWN]
  · intro h
    simp [rawSections, rawLookup, List.lookup, h, formatOrSkipNum, SHOW_UNKNOWN]
  · intro h
    simp [rawSections, rawLookup, List.lookup, h, formatOrSkipNum, SHOW_UNKNOWN]
  · intro h
    simp [rawSections, rawLookup, List.lookup, h, formatOrSkipNum, SHOW_UNKNOWN]
  · intro h
    simp [rawSections, rawLookup, List.lookup, h, formatOrSkipNum, SHOW_UNKNOWN]
  · intro h
    simp [rawSections, rawLookup, List.lookup, h, formatOrSkipNum, SHOW_UNKNOWN]
  · intro h
    simp [rawSections, rawLookup, List.lookup, h, jsAndNum, numTruthy,
      formatOrSkipNum, SHOW_UNKNOWN]
  · intro h h2
    rcases hw : r.wind_speed with _ | v
    · simp [rawSections, rawLookup, List.lookup, h, hw, jsAndNum, numTruthy,
        formatOrSkipNum, SHOW_UNKNOWN]
    · have hv : v ≠ 0 := by rintro rfl; exact h2 hw
      simp [rawSections, rawLookup, List.lookup, h, hw, hv, jsAndNum, numTruthy,
        formatOrSkipNum, SHOW_UNKNOWN]
  · intro h
    simp [rawSections, rawLookup, List.lookup, windComponent_none_of_absent r h,
      formatOrSkipReal, SHOW_UNKNOWN]
  · intro h
    simp [rawSections, rawLookup, List.lookup, h, formatOrSkipNum, SHOW_UNKNOWN]
  · intro h
    simp [rawSections, rawLookup, List.lookup, h, formatOrSkipNum, SHOW_UNKNOWN]
  · intro h
    simp [rawSections, rawLookup, List.lookup, h, formatOrSkipNum, SHOW_UNKNOWN]
  · intro h
    simp [rawSections, rawLookup, List.lookup, h, formatOrSkipNum, SHOW_UNKNOWN]
  · intro h
    simp [rawSections, rawLookup, List.lookup, h, formatOrSkipStr, SHOW_UNKNOWN]
  · intro h
    simp [rawSections, rawLookup, List.lookup, h, formatOrSkipStr, SHOW_UNKNOWN]
  · intro h h2
    simp [rawSections, rawLookup, List.lookup, h, h2, jsOrStr, strTruthy,
      formatOrSkipStr, SHOW_UNKNOWN]
  · intro h
    simp [rawSections, rawLookup, List.lookup, h, formatOrSkipStr, SHOW_UNKNOWN]
  · intro h
    simp [rawSections, rawLookup, List.lookup, h, formatOrSkipStr, SHOW_UNKNOWN]
  · intro h
    simp [rawSections, rawLookup, List.lookup, h, formatOrSkipStr, SHOW_UNKNOWN]
  · intro h
    simp [rawSections, rawLookup, List.lookup, h, timeInAirMinutes, timeInAirString,
      formatOrSkipNum, SHOW_UNKNOWN, jsMod, jsTrunc, qToString]
    rfl

/-- C3 witness: a reading with every field absent renders `"Unknown"` in
the Latitude row and the Wind effect row (amended theorem applied at a
concrete input). -/
theorem C3_witness :
    r100.latitude = none ∧
    rowValue (getTableSections env0 r100) "Latitude" = some "Unknown" ∧
    rowValue (getTableSections env0 r100) "Wind effect" = some "Unknown" := by
  obtain ⟨_, _, _, h4, _, _, _, _, _, _, _, h12, _⟩ := C3_amended env0 r100
  exact ⟨rfl, h4 rfl, h12 (Or.inl rfl)⟩

/-- C9 counterexample.  The claim says a zero `wind_speed` makes the
`Wind` row display `Unknown`.  In the source, `wind_speed &&
wind_direction` evaluates to `0`, and `formatOrSkip(0, ...)` formats it
(`0` is not `null`/`undefined`/`''`), so the row shows
`"0 km/h from 45°"`. -/
theorem C9_counterexample :
    rWindZero.wind_speed = some 0 ∧
    rowValue (getTableSections env0 rWindZero) "Wind" = some "0 km/h from 45°" ∧
    some "0 km/h from 45°" ≠ some "Unknown" := by
  refine ⟨rfl, ?_, by decide⟩
  rw [rowValue_eq_rawLookup]
  simp [rawSections, rawLookup, List.lookup, rWindZero, jsAndNum, numTruthy,
    formatOrSkipNum, SHOW_UNKNOWN, windRowString, jsInterpNum, qToString]
  rfl

/-- C9 amended: a zero `wind_speed`, `wind_direction` or `true_heading`
does make the `Wind effect` row display `Unknown` (presence tested by
truthiness), but the `Wind` row is different: when `wind_speed` is zero —
or `wind_direction` is zero with `wind_speed` present and nonzero — the
`&&` chain yields the number `0`, which `formatOrSkip` formats, so the
row displays the formatted wind string, not `Unknown`. -/
theorem C9_amended (env : RenderEnv) (r : Reading) :
    (r.wind_speed = some 0 ∨ r.wind_direction = some 0 ∨ r.true_heading = some 0 →
      rowValue (getTableSections env r) "Wind effect" = some "Unknown") ∧
    (r.wind_speed = some 0 →
      rowValue (getTableSections env r) "Wind" = some (windRowString r)) ∧
    (r.wind_direction = some 0 → numTruthy r.wind_speed = true →
      rowValue (getTableSections env r) "Wind" = some (windRowString r)) := by
  refine ⟨?_, ?_, ?_⟩ <;> rw [rowValue_eq_rawLookup]
  · intro h
    simp [rawSections, rawLookup, List.lookup, windComponent_none_of_zero r h,
      formatOrSkipReal, SHOW_UNKNOWN]
  · intro h
    simp [rawSections, rawLookup, List.lookup, h, jsAndNum, numTruthy,
      formatOrSkipNum, SHOW_UNKNOWN]
  · intro h h2
    rcases hw : r.wind_speed with _ | v
    · rw [hw] at h2; simp [numTruthy] at h2
    · have hv : v ≠ 0 := by
        rw [hw] at h2; simpa [numTruthy] using h2
      simp [rawSections, rawLookup, List.lookup, h, hw, hv, jsAndNum, numTruthy,
        formatOrSkipNum, SHOW_UNKNOWN]

/-- C9 witness: for the concrete reading with `wind_speed = 0`,
`wind_direction = 45`, `true_heading = 90`, the Wind effect row is
`Unknown` while the Wind row formats the zero (amended theorem applied at
a concrete input). -/
theorem C9_witness :
    rWindZero.wind_speed = some 0 ∧
    rowValue (getTableSections env0 rWindZero) "Wind effect" = some "Unknown" ∧
    rowValue (getTableSections env0 rWindZero) "Wind" = some (windRowString rWindZero) := by
  have h := C9_amended env0 rWindZero
  exact ⟨rfl, h.1 (Or.inl rfl), h.2.1 rfl⟩

/-- C4: the wind component equals
`wind_speed * cos(wind_direction_rad − heading_rad)`, and the spec's
end-to-end scenario holds: heading 90, wind direction 90, wind speed 20
give a wind component of exactly 20 (pure tailwind), both for the bare
formula and through the reading pipeline. -/
theorem C4_theorem :
    (∀ h d s : ℝ, calculateWindComponent h d s
        = s * Real.cos (d * (Real.pi / 180) - h * (Real.pi / 180))) ∧
    calculateWindComponent 90 90 20 = 20 ∧
    windComponent rWindTail = some 20 := by
  refine ⟨?_, ?_, ?_⟩
  · intro h d s
    unfold calculateWindComponent
    ring_nf
  · unfold calculateWindComponent
    simp
  · simp only [windComponent, rWindTail]
    norm_num
    unfold calculateWindComponent
    simp

/-- Specification of the `reduce` in `onScrubChange`, by structural
recursion over the reading list: the selected reading is in the list,
minimizes the absolute timestamp distance to the target, and among
equidistant readings has the least timestamp (ties keep the earlier
element of the sorted list). -/
theorem reduceClosest_spec (t : ℚ) :
    ∀ (rest : List Reading) (first : Reading), List.Pairwise tsLe (first :: rest) →
      reduceClosest t first rest ∈ first :: rest ∧
      (∀ x ∈ first :: rest,
        |(reduceClosest t first rest).timestamp - t| ≤ |x.timestamp - t|) ∧
      (∀ x ∈ first :: rest,
        |x.timestamp - t| = |(reduceClosest t first rest).timestamp - t| →
          (reduceClosest t first rest).timestamp ≤ x.timestamp)
  | [], first, _ => by simp [reduceClosest]
  | curr :: rest, first, hsorted => by
      rw [List.pairwise_cons] at hsorted
      obtain ⟨hfirst, hpair2⟩ := hsorted
      have hred : reduceClosest t first (curr :: rest)
          = reduceClosest t (closestStep t first curr) rest := rfl
      by_cases hc : |curr.timestamp - t| < |first.timestamp - t|
      · have hstep : closestStep t first curr = curr := if_pos hc
        obtain ⟨ihmem, ihmin, ihtie⟩ := reduceClosest_spec t rest curr hpair2
        rw [hred, hstep]
        refine ⟨List.mem_cons_of_mem _ ihmem, ?_, ?_⟩
        · intro x hx
          rcases List.mem_cons.mp hx with rfl | hx2
          · exact le_of_lt (lt_of_le_of_lt (ihmin curr (List.mem_cons_self _ _)) hc)
          · exact ihmin x hx2
        · intro x hx hteq
          rcases List.mem_cons.mp hx with rfl | hx2
          · exact absurd hteq
              (ne_of_gt (lt_of_le_of_lt (ihmin curr (List.mem_cons_self _ _)) hc))
          · exact ihtie x hx2 hteq
      · have hstep : closestStep t first curr = first := if_neg hc
        push_neg at hc
        have hpairA : List.Pairwise tsLe (first :: rest) := by
          rw [List.pairwise_cons]
          exact ⟨fun x hx => hfirst x (List.mem_cons_of_mem _ hx),
            (List.pairwise_cons.mp hpair2).2⟩
        obtain ⟨ihmem, ihmin, ihtie⟩ := reduceClosest_spec t rest first hpairA
        rw [hred, hstep]
        have hmemfull : reduceClosest t first rest ∈ first :: curr :: rest := by
          rcases List.mem_cons.mp ihmem with h2 | h2
          · rw [h2]; exact List.mem_cons_self _ _
          · exact List.mem_cons_of_mem _ (List.mem_cons_of_mem _ h2)
        refine ⟨hmemfull, ?_, ?_⟩
        · intro x hx
          rcases List.mem_cons.mp hx with rfl | hx2
          · exact ihmin x (List.mem_cons_self _ _)
          rcases List.mem_cons.mp hx2 with rfl | hx3
          · exact le_trans (ihmin first (List.mem_cons_self _ _)) hc
          · exact ihmin x (List.mem_cons_of_mem _ hx3)
        · intro x hx hteq
          rcases List.mem_cons.mp hx with rfl | hx2
          · exact ihtie x (List.mem_cons_self _ _) hteq
          rcases List.mem_cons.mp hx2 with rfl | hx3
          · have h1 : |(reduceClosest t first rest).timestamp - t| ≤ |first.timestamp - t| :=
              ihmin first (List.mem_cons_self _ _)
            have h2 : |first.timestamp - t| = |(reduceClosest t first rest).timestamp - t| :=
              le_antisymm (hteq ▸ hc) h1
            exact le_trans (ihtie first (List.mem_cons_self _ _) h2)
              (hfirst x (List.mem_cons_self _ _))
          · exact ihtie x (List.mem_cons_of_mem _ hx3) hteq

/-- C5: for every nonempty reading list sorted by timestamp ascending and
every target time, the reading selected by `onScrubChange`'s `reduce`
minimizes the absolute timestamp distance to the target, and when two
readings are equidistant the selected one has the earlier (least)
timestamp. -/
theorem C5_theorem (t : ℚ) (first : Reading) (rest : List Reading)
    (hsorted : List.Pairwise tsLe (first :: rest)) :
    reduceClosest t first rest ∈ first :: rest ∧
    (∀ x ∈ first :: rest,
      |(reduceClosest t first rest).timestamp - t| ≤ |x.timestamp - t|) ∧
    (∀ x ∈ first :: rest,
      |x.timestamp - t| = |(reduceClosest t first rest).timestamp - t| →
        (reduceClosest t first rest).timestamp ≤ x.timestamp) :=
  reduceClosest_spec t rest first hsorted

/-- C5 witness: target time 150 lies exactly between timestamps 100 and
200; the reduce selects the earlier reading `r100`, whose timestamp is at
minimal distance and below the tied `r200`. -/
theorem C5_witness :
    List.Pairwise tsLe [r100, r200] ∧
    reduceClosest 150 r100 [r200] = r100 ∧
    |r100.timestamp - (150 : ℚ)| = |r200.timestamp - (150 : ℚ)| ∧
    |(reduceClosest 150 r100 [r200]).timestamp - (150 : ℚ)|
      ≤ |r200.timestamp - (150 : ℚ)| ∧
    (reduceClosest 150 r100 [r200]).timestamp ≤ r200.timestamp := by
  have hp : List.Pairwise tsLe [r100, r200] := by decide
  have h := C5_theorem 150 r100 [r200] hp
  refine ⟨hp, ?_, ?_, ?_, ?_⟩
  · norm_num [reduceClosest, closestStep, r100, r200]
  · norm_num [r100, r200]
  · exact h.2.1 r200 (by simp)
  · exact h.2.2 r200 (by simp) (by norm_num [reduceClosest, closestStep, r100, r200])

/-- C6 counterexample.  The claim demands the emitted time
`start + p * (end − start)` for every present start/end with
`end > start`; at `start = 0` (a present, valid epoch value), `end =
1000`, drag position `p = 1/2`, it demands `some 500`.  But the source's
truthiness check `startTime ? ... : null` treats the present value `0` as
absent, so the Scrubber emits nothing at all. -/
theorem C6_counterexample :
    scrubEmit (some 0) (some 1000) 0 100 50 = none ∧
    (0 : ℚ) + (min (max 0 ((50 : ℚ) - 0)) 100 / 100) * (1000 - 0) = 500 ∧
    (none : Option ℚ) ≠ some 500 := by
  refine ⟨?_, ?_, by simp⟩
  · norm_num [scrubEmit, rendersScrubber, validTime]
  · norm_num [min_def, max_def]

/-- C6 amended: for start and estimated end present and nonzero (zero
timestamps are treated as absent by the truthiness guards) with
`end > start`, and a positive bar width, the emitted time is
`start + p * (end − start)` where `p` is the pointer offset clamped into
`[0, width]` and normalized; in particular dragging to the bar's left
edge emits `start` and to its right edge emits `end`. -/
theorem C6_amended (s e rectLeft rectWidth clientX : ℚ)
    (hs : s ≠ 0) (he : e ≠ 0) (hlt : s < e) (hw : 0 < rectWidth) :
    scrubEmit (some s) (some e) rectLeft rectWidth clientX
      = some (s + (min (max 0 (clientX - rectLeft)) rectWidth / rectWidth) * (e - s)) ∧
    scrubEmit (some s) (some e) rectLeft rectWidth rectLeft = some s ∧
    scrubEmit (some s) (some e) rectLeft rectWidth (rectLeft + rectWidth) = some e := by
  have hd0 : 0 < e - s := sub_pos.mpr hlt
  have hd : e - s ≠ 0 := ne_of_gt hd0
  have hvs : validTime (some s) = some s := by simp [validTime, hs]
  have hve : validTime (some e) = some e := by simp [validTime, he]
  have hdur : totalDuration (some s) (some e) = e - s := by simp [totalDuration, hs, he]
  have hgen : ∀ cx, scrubEmit (some s) (some e) rectLeft rectWidth cx
      = some (s + (min (max 0 (cx - rectLeft)) rectWidth / rectWidth) * (e - s)) := by
    intro cx
    simp only [scrubEmit, rendersScrubber, handleScrub, hvs, hve, hdur]
    rw [if_pos]
    · rw [if_neg (by simpa using hd), if_neg (by simp)]
      congr 1
      ring
    · simp [hd0]
  refine ⟨hgen clientX, ?_, ?_⟩
  · rw [hgen rectLeft]
    rw [sub_self, max_self, min_eq_left hw.le]
    norm_num
  · rw [hgen (rectLeft + rectWidth)]
    have hx : rectLeft + rectWidth - rectLeft = rectWidth := by ring
    rw [hx, max_eq_right hw.le, min_self, div_self (ne_of_gt hw)]
    norm_num

/-- C6 witness: a concrete active scrubber (start 100, end 1100, bar from
0 to width 200, pointer at 50) emits `100 + (1/4) * 1000 = 350`, and the
bar edges emit the start and end times (amended theorem applied at a
concrete input). -/
theorem C6_witness :
    ((100 : ℚ) ≠ 0) ∧ ((1100 : ℚ) ≠ 0) ∧ ((100 : ℚ) < 1100) ∧ ((0 : ℚ) < 200) ∧
    scrubEmit (some 100) (some 1100) 0 200 50
      = some (100 + (min (max 0 ((50 : ℚ) - 0)) 200 / 200) * (1100 - 100)) ∧
    scrubEmit (some 100) (some 1100) 0 200 0 = some 100 ∧
    scrubEmit (some 100) (some 1100) 0 200 (0 + 200) = some 1100 := by
  have h := C6_amended 100 1100 0 200 50 (by norm_num) (by norm_num) (by norm_num) (by norm_num)
  exact ⟨by norm_num, by norm_num, by norm_num, by norm_num, h.1, h.2.1, h.2.2⟩

/-- C7: whenever the start time or the estimated end time is absent, or
the estimated end does not exceed the start, the Scrubber renders nothing
(the component's render guard returns null) and therefore emits no change
event for any drag input. -/
theorem C7_theorem (startTime endTime : Option ℚ)
    (h : startTime = none ∨ endTime = none ∨
      ∃ s e, startTime = some s ∧ endTime = some e ∧ e ≤ s) :
    rendersScrubber startTime endTime = false ∧
    ∀ rectLeft rectWidth clientX,
      scrubEmit startTime endTime rectLeft rectWidth clientX = none := by
  have hr : rendersScrubber startTime endTime = false := by
    rcases h with rfl | h
    · simp [rendersScrubber, validTime]
    rcases h with rfl | h
    · cases startTime <;> simp [rendersScrubber, validTime]
    · obtain ⟨s, e, rfl, rfl, hle⟩ := h
      by_cases hs : s = 0
      · simp [rendersScrubber, validTime, hs]
      by_cases heq : e = 0
      · simp [rendersScrubber, validTime, hs, heq]
      · have hnp : ¬ (0 < e - s) := not_lt.mpr (sub_nonpos.mpr hle)
        simp [rendersScrubber, validTime, totalDuration, hs, heq, hnp]
  exact ⟨hr, fun rectLeft rectWidth clientX => by simp [scrubEmit, hr]⟩

/-- C7 witness: with start 5 after estimated end 3 the Scrubber renders
nothing and a drag at a concrete pointer position emits nothing (theorem
applied at a concrete input). -/
theorem C7_witness :
    ((3 : ℚ) ≤ 5) ∧
    rendersScrubber (some 5) (some 3) = false ∧
    scrubEmit (some 5) (some 3) 0 100 50 = none := by
  have h := C7_theorem (some 5) (some 3)
    (Or.inr (Or.inr ⟨5, 3, rfl, rfl, by norm_num⟩))
  exact ⟨by norm_num, h.1, h.2 0 100 50⟩

/-- C10: for every pointer x-coordinate — including positions left or
right of the scrubber bar — and every start/end with `end > start` and a
positive bar width, any emitted time lies in the closed interval
`[start, end]`, because the pointer offset is clamped into
`[0, rect.width]` before being normalized. -/
theorem C10_theorem (s e rectLeft rectWidth clientX t2 : ℚ)
    (hlt : s < e) (hw : 0 < rectWidth)
    (hemit : scrubEmit (some s) (some e) rectLeft rectWidth clientX = some t2) :
    s ≤ t2 ∧ t2 ≤ e := by
  by_cases hs : s = 0
  · simp [scrubEmit, rendersScrubber, validTime, hs] at hemit
  by_cases heq : e = 0
  · simp [scrubEmit, rendersScrubber, validTime, hs, heq] at hemit
  have hd0 : 0 < e - s := sub_pos.mpr hlt
  have hd : e - s ≠ 0 := ne_of_gt hd0
  simp only [scrubEmit, rendersScrubber, handleScrub, validTime, totalDuration,
    if_neg hs, if_neg heq] at hemit
  rw [if_pos (by simp [hs, heq, hd0])] at hemit
  rw [if_neg (by simp [hs, heq, hd]), if_neg (by simp)] at hemit
  simp only [if_neg (show ¬ (s = 0 ∨ e = 0) from by simp [hs, heq]),
    Option.some.injEq] at hemit
  set x := min (max 0 (clientX - rectLeft)) rectWidth with hx
  have hx0 : 0 ≤ x := le_min (le_max_left 0 _) hw.le
  have hxw : x ≤ rectWidth := min_le_right _ _
  have hp0 : 0 ≤ x / rectWidth := div_nonneg hx0 hw.le
  have hp1 : x / rectWidth ≤ 1 := (div_le_one hw).mpr hxw
  have ht2 : t2 = s + (e - s) * (x / rectWidth) := by
    rw [← hemit]
    ring
  constructor
  · rw [ht2]
    nlinarith
  · rw [ht2]
    nlinarith

/-- C10 witness: pointer at x = 500, far beyond a bar of width 200, is
clamped to the bar's right edge; the emitted time 1100 equals the end of
the interval `[100, 1100]` (theorem applied at a concrete input). -/
theorem C10_witness :
    ((100 : ℚ) < 1100) ∧ ((0 : ℚ) < 200) ∧
    scrubEmit (some 100) (some 1100) 0 200 500 = some 1100 ∧
    (100 : ℚ) ≤ 1100 ∧ (1100 : ℚ) ≤ 1100 := by
  have hemit : scrubEmit (some 100) (some 1100) 0 200 500 = some 1100 := by
    norm_num [scrubEmit, rendersScrubber, handleScrub, validTime, totalDuration]
  have h := C10_theorem 100 1100 0 200 500 1100 (by norm_num) (by norm_num) hemit
  exact ⟨by norm_num, by norm_num, hemit, h.1, h.2⟩

end PyMyFlySpy
